import Mathlib

/-!
Shallow embedding of the Rapid7 Insight Agent provisioning scripts
(`rapid7_insight_agent_install.py`, legacy top-level revision, and
`rapid7/rapid7_insight_agent_install.py`, the validated revision).

The scripts are modelled as pure functions from a request plus an abstract
environment (filesystem predicates, remote-server behaviour, installer exit
code) to an outcome, a final filesystem state and a trace of effects
(network requests, file opens/reads/writes, child-process spawns, logging
calls and console output).  Machine-level details that no claim depends on
(UTF-8 byte positions, Windows path separators) are modelled at the level
of character lists and `/`-joined paths.
-/

/-- True for characters in the regex class `[a-z]`. -/
def isLowerAZ (c : Char) : Bool := ('a' ≤ c) && (c ≤ 'z')

/-- True for characters in the regex class `[0-9a-fA-F]`. -/
def isHexAF (c : Char) : Bool :=
  (('0' ≤ c) && (c ≤ '9')) || (('a' ≤ c) && (c ≤ 'f')) || (('A' ≤ c) && (c ≤ 'F'))

/-- Consume exactly `n` characters satisfying `p`; return the rest, or `none`. -/
def takeRun (p : Char → Bool) : Nat → List Char → Option (List Char)
  | 0, s => some s
  | _ + 1, [] => none
  | n + 1, c :: s => if p c then takeRun p n s else none

/-- Consume one literal character `c`; return the rest, or `none`. -/
def expectCh (c : Char) : List Char → Option (List Char)
  | [] => none
  | d :: s => if d = c then some s else none

/-- One segment of an anchored regular expression made of fixed-length
character-class runs and literal characters. -/
inductive Seg where
  | run (p : Char → Bool) (n : Nat)
  | lit (c : Char)

/-- Consume one segment. -/
def segStep : Seg → List Char → Option (List Char)
  | Seg.run p n, s => takeRun p n s
  | Seg.lit c, s => expectCh c s

/-- Consume a sequence of segments. -/
def segsRun : List Seg → List Char → Option (List Char)
  | [], s => some s
  | g :: gs, s =>
    match segStep g s with
    | none => none
    | some s2 => segsRun gs s2

/-- Number of characters one segment consumes. -/
def segLen : Seg → Nat
  | Seg.run _ n => n
  | Seg.lit _ => 1

/-- The token pattern of the validated script, the anchored regex
`[a-z]{2}:[0-9a-fA-F]{8}-[0-9a-fA-F]{4}-[0-9a-fA-F]{4}-[0-9a-fA-F]{4}-[0-9a-fA-F]{12}`
(with `^`/`$` anchors), as a segment list. -/
def tokenSegs : List Seg :=
  [Seg.run isLowerAZ 2, Seg.lit ':',
   Seg.run isHexAF 8, Seg.lit '-',
   Seg.run isHexAF 4, Seg.lit '-',
   Seg.run isHexAF 4, Seg.lit '-',
   Seg.run isHexAF 4, Seg.lit '-',
   Seg.run isHexAF 12]

/-- The check `token_pattern.match(token)` of the validated script: the
whole string must match the anchored regex.  Python's `$` matches at the
end of the string or just before a newline at the end of the string, so a
match leaves either nothing or a single trailing newline unconsumed. -/
def tokenMatch (t : String) : Bool :=
  decide (segsRun tokenSegs t.data = some [])
    || decide (segsRun tokenSegs t.data = some [Char.ofNat 10])

/-- The `url.startswith(pre)` check, on character lists. -/
def hasPrefixL : List Char → List Char → Bool
  | [], _ => true
  | _ :: _, [] => false
  | a :: as, b :: bs => (a == b) && hasPrefixL as bs

/-- Substring test: `needle` occurs contiguously inside the second list. -/
def hasInfixL (needle : List Char) : List Char → Bool
  | [] => needle.isEmpty
  | c :: rest => hasPrefixL needle (c :: rest) || hasInfixL needle rest

/-- The URL-scheme check of the validated script:
`url.startswith("http://") or url.startswith("https://")`. -/
def urlSchemeOk (url : String) : Bool :=
  hasPrefixL ("http://").data url.data || hasPrefixL ("https://").data url.data

theorem takeRun_length (p : Char → Bool) :
    ∀ (n : Nat) (s r : List Char), takeRun p n s = some r → s.length = n + r.length := by
  intro n
  induction n with
  | zero =>
    intro s r h
    simp [takeRun] at h
    simp [h]
  | succ n ih =>
    intro s r h
    cases s with
    | nil => simp [takeRun] at h
    | cons c cs =>
      simp only [takeRun] at h
      split at h
      · have := ih cs r h
        simp [List.length, this]
        omega
      · exact absurd h (by simp)

theorem expectCh_length (c : Char) (s r : List Char) (h : expectCh c s = some r) :
    s.length = 1 + r.length := by
  cases s with
  | nil => simp [expectCh] at h
  | cons d ds =>
    simp only [expectCh] at h
    split at h
    · simp at h
      simp [← h]
      omega
    · exact absurd h (by simp)

theorem segStep_length (g : Seg) (s r : List Char) (h : segStep g s = some r) :
    s.length = segLen g + r.length := by
  cases g with
  | run p n => exact takeRun_length p n s r h
  | lit c => exact expectCh_length c s r h

theorem segsRun_length :
    ∀ (gs : List Seg) (s r : List Char), segsRun gs s = some r →
      s.length = (gs.map segLen).sum + r.length := by
  intro gs
  induction gs with
  | nil =>
    intro s r h
    simp [segsRun] at h
    simp [h]
  | cons g gs ih =>
    intro s r h
    simp only [segsRun] at h
    cases h2 : segStep g s with
    | none => rw [h2] at h; exact absurd h (by simp)
    | some s2 =>
      rw [h2] at h
      have l1 := segStep_length g s s2 h2
      have l2 := ih s2 r h
      simp [List.map, List.sum_cons, l1, l2]
      omega

/-- Any string accepted by the full token pattern has exactly 39
characters, or 40 when it carries the trailing newline Python's `$`
tolerates. -/
theorem tokenMatch_length (t : String) (h : tokenMatch t = true) :
    t.length = 39 ∨ t.length = 40 := by
  unfold tokenMatch at h
  have hsum : (tokenSegs.map segLen).sum = 39 := by decide
  simp only [Bool.or_eq_true] at h
  rcases h with h1 | h1
  · have h2 : segsRun tokenSegs t.data = some [] := of_decide_eq_true h1
    have h3 := segsRun_length tokenSegs t.data [] h2
    rw [hsum] at h3
    left
    have h4 : t.data.length = 39 := by rw [h3]; rfl
    exact h4
  · have h2 : segsRun tokenSegs t.data = some [Char.ofNat 10] := of_decide_eq_true h1
    have h3 := segsRun_length tokenSegs t.data [Char.ofNat 10] h2
    rw [hsum] at h3
    right
    have h4 : t.data.length = 40 := by rw [h3]; rfl
    exact h4

example : tokenMatch ("us:AAAAAAAA-BBBB-CCCC-DDDD-EEEEEEEEEEEE") = true := by decide
example : tokenMatch ("short") = false := by decide
example : tokenMatch ("us:AAAAAAAA-BBBB-CCCC-DDDD-EEEEEEEEEEE") = false := by decide
example : urlSchemeOk ("https://example.com/a.msi") = true := by decide
example : urlSchemeOk ("ftp://example.com/a.msi") = false := by decide

/-- Effects a run can perform, in order of occurrence.  `probe` is an
existence/permission check (`os.path.isdir`, `os.access`, `os.path.exists`):
it reads directory metadata only, not file contents.  `logCall lvl m` is a
call into the `logging` module at numeric level `lvl` (ERROR = 40,
INFO = 20); whether it produces output depends on the configured root
level.  `prompt` is a call to `input(text)` (writes `text` to stdout and
reads a line from stdin). -/
inductive Event where
  | probe (path : String)
  | fileRead (path : String)
  | fileOpenW (path : String)
  | fileWrite (path : String) (data : List Nat)
  | netGet (url : String) (timeout : Option Nat)
  | spawn (argv : List String)
  | logCall (level : Nat) (msg : String)
  | outLine (msg : String)
  | errLine (msg : String)
  | prompt (text : String)
deriving DecidableEq

/-- Failure of the fetch step: `requests` raising at request time
(`TransportFailed`, covering connection errors and timeouts),
`raise_for_status` raising on a 4xx/5xx status (`httpStatus`), the stream
breaking mid-transfer (also a `requests` exception, `transportFailed`), or
`file.write` raising `IOError` (`writeFailed`). -/
inductive FetchError where
  | transportFailed
  | httpStatus (code : Nat)
  | writeFailed
deriving DecidableEq

/-- Failure of the install step: `subprocess.run(..., check=True)` raising
`CalledProcessError` with the child's non-zero exit status. -/
inductive InstallError where
  | nonZeroExit (code : Nat)
deriving DecidableEq

/-- Which check or step a run failed in.  The names follow the spec's error
taxonomy; in the scripts each corresponds to a distinct `sys.exit(1)` site
(validation) or a distinct caught exception (fetch/install).  Both token
checks of the validated script (the minimum-length pre-filter and the full
pattern match) are token-format rejections, `badTokenFormat`. -/
inductive FailReason where
  | badURLScheme
  | badTokenFormat
  | targetDirectoryMissing
  | targetDirectoryNotWritable
  | fetchError (e : FetchError)
  | installError (e : InstallError)
deriving DecidableEq

/-- Overall outcome of a run. -/
inductive Outcome where
  | success
  | failed (r : FailReason)
deriving DecidableEq

/-- The process exit status the script reports: `sys.exit(1)` at every
failure site, falling off `main` (status 0) on success. -/
def exitCode : Outcome → Nat
  | Outcome.success => 0
  | Outcome.failed _ => 1

/-- Filesystem contents: each path maps to the byte string of the regular
file there, if any. -/
def FS : Type := String → Option (List Nat)

/-- Write (create or overwrite) one file. -/
def setFile (fs : FS) (p : String) (v : List Nat) : FS :=
  fun q => if q = p then some v else fs q

/-- Behaviour of the remote server for the one GET request: either the
request itself raises (connection failure/timeout), or a response arrives
with `status`, the body chunks `iter_content` yields, and whether the
stream raises after yielding them (`interrupted`). -/
inductive FetchBehavior where
  | connectFail
  | resp (status : Nat) (chunks : List (List Nat)) (interrupted : Bool)

/-- Environment of one run of the validated script: directory predicates
(indexed by absolute path), remote behaviour, at which chunk index (if any)
`file.write` raises `IOError`, and the installer child process's exit
status. -/
structure Env where
  isdir : String → Bool
  writable : String → Bool
  fetch : FetchBehavior
  writeFailAt : Option Nat
  installExit : Nat

/-- The chunk-writing loop `for chunk in response.iter_content(...):
file.write(chunk)`: returns the write events, the bytes on disk when the
loop ends, and whether a write raised (`env.writeFailAt` gives the index of
the failing write). -/
def writeChunks (path : String) : List (List Nat) → Option Nat → List Event × List Nat × Bool
  | [], _ => ([], [], false)
  | _ :: _, some 0 => ([], [], true)
  | c :: cs, some (k + 1) =>
    let r := writeChunks path cs (some k)
    (Event.fileWrite path c :: r.1, c ++ r.2.1, r.2.2)
  | c :: cs, none =>
    let r := writeChunks path cs none
    (Event.fileWrite path c :: r.1, c ++ r.2.1, r.2.2)

/-- Bytes on disk after the chunk loop. -/
def writtenBytes (chunks : List (List Nat)) (failAt : Option Nat) : List Nat :=
  (writeChunks ("") chunks failAt).2.1

namespace Validated

/-- Stand-in for the library-rendered exception text interpolated by
`logging.error("Failed to download file: %s", e)`.  The rendered text is
produced by `requests`, not by this repository, and at the configured root
level (CRITICAL) the message is never emitted, so its exact content is
unobservable. -/
def dlFailMsg : String := ("Failed to download file: <exception>")

/-- Stand-in for `logging.error("Failed to write file to %s: %s", target_path, e)`. -/
def wrFailMsg (target_path : String) : String :=
  ("Failed to write file to ") ++ target_path ++ (": <exception>")

/-- Stand-in for `logging.error("MSI installation failed: %s", e)`. -/
def msiFailMsg : String := ("MSI installation failed: <exception>")

/-- Stand-in for `logging.error("An error occurred: %s", e)` in `main`. -/
def mainErrMsg : String := ("An error occurred: <exception>")

/-- Message of `logging.error` at the URL-scheme check. -/
def urlErrMsg : String :=
  ("Invalid URL format. URL must start with \x27http://\x27 or \x27https://\x27.")

/-- Message of `logging.error` at the token minimum-length check. -/
def tokenLenErrMsg : String :=
  ("Invalid token. Token must be at least 10 characters long.")

/-- Message of `logging.error` at the token pattern check. -/
def tokenFmtErrMsg : String :=
  ("Invalid token format. Token must match the pattern \x27<region_id>:XXXXXXXX-XXXX-XXXX-XXXX-XXXXXXXXXXXX\x27.")

/-- Message of `logging.error` when the target directory does not exist. -/
def dirMissingMsg (td : String) : String :=
  ("The target directory \x27") ++ td ++ ("\x27 does not exist.")

/-- Message of `logging.error` when the target directory is not writable. -/
def dirNotWritableMsg (td : String) : String :=
  ("The target directory \x27") ++ td ++ ("\x27 is not writable.")

/-- The `download_file` function of the validated script:
`requests.get(url, stream=True, timeout=30)`, `raise_for_status()`, then
`open(target_path, 'wb')` (which truncates/creates the file at the final
name) and the chunked write loop.  Returns the filesystem after the call,
the events it performed, and the exception it re-raised, if any. -/
def download_file (url target_path : String) (env : Env) (fs : FS) :
    FS × List Event × Option FetchError :=
  match env.fetch with
  | FetchBehavior.connectFail =>
    (fs, [Event.netGet url (some 30), Event.logCall 40 dlFailMsg],
     some FetchError.transportFailed)
  | FetchBehavior.resp status chunks interrupted =>
    if 400 ≤ status then
      (fs, [Event.netGet url (some 30), Event.logCall 40 dlFailMsg],
       some (FetchError.httpStatus status))
    else
      let w := writeChunks target_path chunks env.writeFailAt
      let fs2 := setFile fs target_path w.2.1
      if w.2.2 then
        (fs2, [Event.netGet url (some 30), Event.fileOpenW target_path] ++ w.1
           ++ [Event.logCall 40 (wrFailMsg target_path)],
         some FetchError.writeFailed)
      else if interrupted then
        (fs2, [Event.netGet url (some 30), Event.fileOpenW target_path] ++ w.1
           ++ [Event.logCall 40 dlFailMsg],
         some FetchError.transportFailed)
      else
        (fs2, [Event.netGet url (some 30), Event.fileOpenW target_path] ++ w.1, none)

/-- The argument vector the validated script's `install_msi` builds. -/
def install_command (msi_path target_directory token : String) : List String :=
  [("msiexec"), ("/i"), msi_path,
   ("/l*v"), ("insight_agent_install_log.log"),
   ("CUSTOMCONFIGPATH=") ++ target_directory,
   ("CUSTOMTOKEN=") ++ token,
   ("/quiet"), ("/qn")]

/-- The `install_msi` function of the validated script:
`subprocess.run(command, check=True)`, re-raising `CalledProcessError`
(after a suppressed `logging.error`) on a non-zero exit status. -/
def install_msi (msi_path target_directory token : String) (env : Env) :
    List Event × Option InstallError :=
  if env.installExit = 0 then
    ([Event.spawn (install_command msi_path target_directory token)], none)
  else
    ([Event.spawn (install_command msi_path target_directory token),
      Event.logCall 40 msiFailMsg],
     some (InstallError.nonZeroExit env.installExit))

/-- A provisioning request after argument parsing: the three required
string arguments. -/
structure Request where
  url : String
  target_directory : String
  token : String

/-- The `main` function of the validated script, after `argparse` has
produced the three required strings.  `abspath` models `os.path.abspath`
(resolution depends on the process's working directory, so it is a
parameter); `fs` is the filesystem the run starts with.  Returns the
outcome, the final filesystem and the event trace. -/
def run (abspath : String → String) (req : Request) (env : Env) (fs : FS) :
    Outcome × FS × List Event :=
  let td := abspath req.target_directory
  if urlSchemeOk req.url = false then
    (Outcome.failed FailReason.badURLScheme, fs, [Event.logCall 40 urlErrMsg])
  else if req.token.length < 10 then
    (Outcome.failed FailReason.badTokenFormat, fs, [Event.logCall 40 tokenLenErrMsg])
  else if tokenMatch req.token = false then
    (Outcome.failed FailReason.badTokenFormat, fs, [Event.logCall 40 tokenFmtErrMsg])
  else if env.isdir td = false then
    (Outcome.failed FailReason.targetDirectoryMissing, fs,
     [Event.probe td, Event.logCall 40 (dirMissingMsg td)])
  else if env.writable td = false then
    (Outcome.failed FailReason.targetDirectoryNotWritable, fs,
     [Event.probe td, Event.probe td, Event.logCall 40 (dirNotWritableMsg td)])
  else
    let msi_path := td ++ ("/") ++ ("agentInstaller.msi")
    let pre := [Event.probe td, Event.probe td,
                Event.logCall 20 ("Downloading MSI installer...")]
    let dl := download_file req.url msi_path env fs
    match dl.2.2 with
    | some e =>
      (Outcome.failed (FailReason.fetchError e), dl.1,
       pre ++ dl.2.1 ++ [Event.logCall 40 mainErrMsg])
    | none =>
      let mid := [Event.logCall 20 ("Download complete."),
                  Event.logCall 20 ("Installing MSI installer...")]
      let ins := install_msi msi_path td req.token env
      match ins.2 with
      | some e =>
        (Outcome.failed (FailReason.installError e), dl.1,
         pre ++ dl.2.1 ++ mid ++ ins.1 ++ [Event.logCall 40 mainErrMsg])
      | none =>
        (Outcome.success, dl.1,
         pre ++ dl.2.1 ++ mid ++ ins.1 ++ [Event.logCall 20 ("Installation complete.")])

end Validated

/-- Root logger level the validated script configures:
`logging.basicConfig(level=logging.CRITICAL, ...)` (CRITICAL = 50). -/
def rootLogLevel : Nat := 50

/-- The console text one event emits, if any: `print` output, and logging
output only when the call's level reaches the configured root level (the
validated script's `logging.error` calls, at level 40 < 50, emit
nothing). -/
def emits : Event → Option String
  | Event.outLine m => some m
  | Event.errLine m => some m
  | Event.prompt m => some m
  | Event.logCall lvl m => if rootLogLevel ≤ lvl then some m else none
  | _ => none

/-- All console output of a trace, in order. -/
def visibleOutput (t : List Event) : List String := t.filterMap emits

/-- The path one event reads or writes file contents at, if any (probes
touch only directory metadata and are not reads of any file). -/
def pathOf : Event → Option String
  | Event.fileRead p => some p
  | Event.fileOpenW p => some p
  | Event.fileWrite p _ => some p
  | _ => none

/-- Paths whose file contents a trace reads or writes. -/
def pathsTouched (t : List Event) : List String := t.filterMap pathOf

/-- True for the events that start a pipeline stage with external effect:
the network request of the fetch step and the child-process spawn of the
install step. -/
def isStageEvent : Event → Bool
  | Event.netGet _ _ => true
  | Event.spawn _ => true
  | _ => false

/-- The fetch/install stage events of a trace. -/
def stageEvents (t : List Event) : List Event := t.filter isStageEvent

/-- The argument vector one event spawns, if any. -/
def argvOf : Event → Option (List String)
  | Event.spawn a => some a
  | _ => none

/-- The spawned argument vectors of a trace. -/
def spawnArgs (t : List Event) : List (List String) := t.filterMap argvOf

namespace Legacy

/-- Environment of one run of the legacy (top-level) script.  `envFile` is
the content of `./.env` as key/value pairs (`none` when the file does not
exist; well-formed `KEY=value` lines are assumed, as the claims do not
exercise the line parser).  `fetchExcText` and `writeExcText` are the
library-rendered texts of a `requests` exception and of an `IOError`: those
strings are produced by the libraries, not by this repository, so they are
environment data. -/
structure Env where
  envFile : Option (List (String × String))
  isdir : String → Bool
  fetch : FetchBehavior
  writeFailAt : Option Nat
  fetchExcText : String
  writeExcText : String
  installExit : Nat

/-- Lookup `env_vars.get(key)` on the parsed `.env` mapping. -/
def lookupVar (vars : List (String × String)) (k : String) : Option String :=
  (vars.find? (fun p => p.1 == k)).map (fun p => p.2)

/-- Python truthiness of an optional string: `None` and the empty string
are falsy. -/
def truthy : Option String → Option String
  | none => none
  | some s => if s.length = 0 then none else some s

/-- The resolution chain of the legacy `main` for one value:
`args.x or env_vars.get(KEY)`, then `if not x: x = input(promptText)`.
Returns the resolved value and the prompt event, if one occurred. -/
def resolveVal (arg envv : Option String) (promptText promptResp : String) :
    String × List Event :=
  match truthy arg with
  | some v => (v, [])
  | none =>
    match truthy envv with
    | some v => (v, [])
    | none => (promptResp, [Event.prompt promptText])

/-- The call `load_env_file('.env')`: an existence probe, then (when the file
exists) a read of it.  Returns the parsed mapping and the events. -/
def load_env_file (env : Env) : List (String × String) × List Event :=
  match env.envFile with
  | none => ([], [Event.probe (".env")])
  | some vars => (vars, [Event.probe (".env"), Event.fileRead (".env")])

/-- The `download_file` function of the legacy script:
`requests.get(url, stream=True)` with no timeout, `raise_for_status()`,
then the chunked write loop.  It has no try/except of its own: exceptions
propagate to `main`. -/
def download_file (url target_path : String) (env : Env) (fs : FS) :
    FS × List Event × Option FetchError :=
  match env.fetch with
  | FetchBehavior.connectFail =>
    (fs, [Event.netGet url none], some FetchError.transportFailed)
  | FetchBehavior.resp status chunks interrupted =>
    if 400 ≤ status then
      (fs, [Event.netGet url none], some (FetchError.httpStatus status))
    else
      let w := writeChunks target_path chunks env.writeFailAt
      let fs2 := setFile fs target_path w.2.1
      if w.2.2 then
        (fs2, [Event.netGet url none, Event.fileOpenW target_path] ++ w.1,
         some FetchError.writeFailed)
      else if interrupted then
        (fs2, [Event.netGet url none, Event.fileOpenW target_path] ++ w.1,
         some FetchError.transportFailed)
      else
        (fs2, [Event.netGet url none, Event.fileOpenW target_path] ++ w.1, none)

/-- The argument vector the legacy script's `install_msi` builds (no `/qn`
flag, unlike the validated revision). -/
def install_command (msi_path target_directory token : String) : List String :=
  [("msiexec"), ("/i"), msi_path,
   ("/l*v"), ("insight_agent_install_log.log"),
   ("CUSTOMCONFIGPATH=") ++ target_directory,
   ("CUSTOMTOKEN=") ++ token,
   ("/quiet")]

/-- CPython's `repr` of a string containing no quote or escape
characters: the string wrapped in single quotes (`\x27`). -/
def pyRepr (s : String) : String := ("\x27") ++ s ++ ("\x27")

/-- CPython's `str`/`repr` of a list of such strings:
`[` + comma-separated `repr`s + `]`. -/
def pyListRepr (l : List String) : String :=
  ("[") ++ String.intercalate (", ") (l.map pyRepr) ++ ("]")

/-- CPython's `CalledProcessError.__str__` for a non-negative return code:
`"Command '%s' returned non-zero exit status %d." % (cmd, returncode)`,
where `%s` on the argument list renders it with `pyListRepr`. -/
def calledProcessErrorText (cmd : List String) (code : Nat) : String :=
  ("Command \x27") ++ pyListRepr cmd ++ ("\x27 returned non-zero exit status ")
    ++ toString code ++ (".")

/-- Prompt text for the URL. -/
def urlPromptText : String := ("Please enter the URL to download the MSI installer: ")

/-- Prompt text for the target directory. -/
def tdPromptText : String := ("Please enter the target directory for dependencies: ")

/-- Prompt text for the token. -/
def tokenPromptText : String := ("Please enter the custom token for installation: ")

/-- The `main` function of the legacy script: loads `.env`, resolves the
three values from arguments, environment file, or interactive prompts
(`promptUrl`/`promptTd`/`promptToken` are the stdin responses), resolves
the target directory to an absolute path, checks only that it is a
directory, then downloads and installs inside one broad
`except Exception` that prints `f"An error occurred: {e}"` to stderr. -/
def run (abspath : String → String)
    (argUrl argTd argToken : Option String)
    (promptUrl promptTd promptToken : String)
    (env : Env) (fs : FS) : Outcome × FS × List Event :=
  let ld := load_env_file env
  let ru := resolveVal argUrl (lookupVar ld.1 ("RAPID7_URL")) urlPromptText promptUrl
  let rt := resolveVal argTd (lookupVar ld.1 ("RAPID7_TARGET_DIRECTORY")) tdPromptText promptTd
  let rk := resolveVal argToken (lookupVar ld.1 ("RAPID7_TOKEN")) tokenPromptText promptToken
  let pre := ld.2 ++ ru.2 ++ rt.2 ++ rk.2
  let td := abspath rt.1
  if env.isdir td = false then
    (Outcome.failed FailReason.targetDirectoryMissing, fs,
     pre ++ [Event.probe td,
             Event.errLine (("Error: The target directory \x27") ++ td
               ++ ("\x27 does not exist."))])
  else
    let msi_path := td ++ ("/") ++ ("agentInstaller.msi")
    let pre2 := pre ++ [Event.probe td,
                        Event.outLine ("Downloading MSI installer...")]
    let dl := download_file ru.1 msi_path env fs
    match dl.2.2 with
    | some FetchError.writeFailed =>
      (Outcome.failed (FailReason.fetchError FetchError.writeFailed), dl.1,
       pre2 ++ dl.2.1
         ++ [Event.errLine (("An error occurred: ") ++ env.writeExcText)])
    | some e =>
      (Outcome.failed (FailReason.fetchError e), dl.1,
       pre2 ++ dl.2.1
         ++ [Event.errLine (("An error occurred: ") ++ env.fetchExcText)])
    | none =>
      let mid := [Event.outLine ("Download complete."),
                  Event.outLine ("Installing MSI installer...")]
      let cmd := install_command msi_path td rk.1
      if env.installExit = 0 then
        (Outcome.success, dl.1,
         pre2 ++ dl.2.1 ++ mid ++ [Event.spawn cmd,
                                   Event.outLine ("Installation complete.")])
      else
        (Outcome.failed (FailReason.installError (InstallError.nonZeroExit env.installExit)),
         dl.1,
         pre2 ++ dl.2.1 ++ mid
           ++ [Event.spawn cmd,
               Event.errLine (("An error occurred: ")
                 ++ calledProcessErrorText cmd env.installExit)])

end Legacy

theorem writeChunks_events (path : String) :
    ∀ (cs : List (List Nat)) (k : Option Nat) (e : Event),
      e ∈ (writeChunks path cs k).1 → ∃ d, e = Event.fileWrite path d := by
  intro cs
  induction cs with
  | nil => intro k e h; simp [writeChunks] at h
  | cons c cs ih =>
    intro k e h
    match k with
    | none =>
      simp only [writeChunks, List.mem_cons] at h
      rcases h with h1 | h1
      · exact ⟨c, h1⟩
      · exact ih none e h1
    | some 0 => simp [writeChunks] at h
    | some (j + 1) =>
      simp only [writeChunks, List.mem_cons] at h
      rcases h with h1 | h1
      · exact ⟨c, h1⟩
      · exact ih (some j) e h1

theorem writeChunks_complete (path : String) :
    ∀ (cs : List (List Nat)),
      (writeChunks path cs none).2.1 = cs.flatten ∧ (writeChunks path cs none).2.2 = false := by
  intro cs
  induction cs with
  | nil => simp [writeChunks]
  | cons c cs ih => simp [writeChunks, ih.1, ih.2]

@[simp] theorem writeChunks_stage (path : String) (cs : List (List Nat)) (k : Option Nat) :
    List.filter isStageEvent ((writeChunks path cs k).1) = [] := by
  apply List.filter_eq_nil_iff.mpr
  intro e he
  rcases writeChunks_events path cs k e he with ⟨d, rfl⟩
  simp [isStageEvent]

@[simp] theorem writeChunks_visible (path : String) (cs : List (List Nat)) (k : Option Nat) :
    List.filterMap emits ((writeChunks path cs k).1) = [] := by
  apply List.filterMap_eq_nil_iff.mpr
  intro e he
  rcases writeChunks_events path cs k e he with ⟨d, rfl⟩
  simp [emits]

@[simp] theorem writeChunks_spawns (path : String) (cs : List (List Nat)) (k : Option Nat) :
    List.filterMap argvOf ((writeChunks path cs k).1) = [] := by
  apply List.filterMap_eq_nil_iff.mpr
  intro e he
  rcases writeChunks_events path cs k e he with ⟨d, rfl⟩
  simp [argvOf]

theorem writeChunks_paths (path : String) (cs : List (List Nat)) (k : Option Nat) :
    ∀ p ∈ List.filterMap pathOf ((writeChunks path cs k).1), p = path := by
  intro p hp
  rcases List.mem_filterMap.mp hp with ⟨e, he, hf⟩
  rcases writeChunks_events path cs k e he with ⟨d, rfl⟩
  simp [pathOf] at hf
  exact hf.symm

theorem writeChunks_none_events (path : String) :
    ∀ (cs : List (List Nat)),
      (writeChunks path cs none).1 = cs.map (Event.fileWrite path) := by
  intro cs
  induction cs with
  | nil => simp [writeChunks]
  | cons c cs ih => simp [writeChunks, ih]

theorem dl_events (u p : String) (env : Env) (fs : FS) :
    ∀ e ∈ (Validated.download_file u p env fs).2.1,
      e = Event.netGet u (some 30) ∨ e = Event.fileOpenW p
      ∨ (∃ d, e = Event.fileWrite p d) ∨ (∃ m, e = Event.logCall 40 m) := by
  intro e he
  unfold Validated.download_file at he
  rcases hf : env.fetch with _ | ⟨status, chunks, intr⟩
  · rw [hf] at he
    simp only [List.mem_cons, List.mem_singleton] at he
    rcases he with h | h | h
    · exact Or.inl h
    · exact Or.inr (Or.inr (Or.inr ⟨Validated.dlFailMsg, h⟩))
    · simp at h
  · rw [hf] at he
    by_cases hs : 400 ≤ status
    · simp only [hs, if_true, ite_true] at he
      simp only [List.mem_cons, List.mem_singleton] at he
      rcases he with h | h | h
      · exact Or.inl h
      · exact Or.inr (Or.inr (Or.inr ⟨Validated.dlFailMsg, h⟩))
      · simp at h
    · simp only [hs, if_false, ite_false] at he
      cases hw : (writeChunks p chunks env.writeFailAt).2.2 with
      | true =>
        simp only [hw, ite_true, List.append_assoc, List.cons_append, List.nil_append,
          List.mem_cons, List.mem_append, List.mem_singleton] at he
        rcases he with h | h | h
        · exact Or.inl h
        · exact Or.inr (Or.inl h)
        · rcases h with h | h
          · rcases writeChunks_events p chunks env.writeFailAt e h with ⟨d, rfl⟩
            exact Or.inr (Or.inr (Or.inl ⟨d, rfl⟩))
          · simp at h
            exact Or.inr (Or.inr (Or.inr ⟨Validated.wrFailMsg p, h⟩))
      | false =>
        cases intr with
        | true =>
          simp only [hw, ite_false, ite_true, Bool.false_eq_true, if_false,
            List.append_assoc, List.cons_append, List.nil_append,
            List.mem_cons, List.mem_append, List.mem_singleton] at he
          rcases he with h | h | h
          · exact Or.inl h
          · exact Or.inr (Or.inl h)
          · rcases h with h | h
            · rcases writeChunks_events p chunks env.writeFailAt e h with ⟨d, rfl⟩
              exact Or.inr (Or.inr (Or.inl ⟨d, rfl⟩))
            · simp at h
              exact Or.inr (Or.inr (Or.inr ⟨Validated.dlFailMsg, h⟩))
        | false =>
          simp only [hw, Bool.false_eq_true, if_false,
            List.cons_append, List.nil_append, List.mem_cons, List.mem_append] at he
          rcases he with h | h | h
          · exact Or.inl h
          · exact Or.inr (Or.inl h)
          · rcases writeChunks_events p chunks env.writeFailAt e h with ⟨d, rfl⟩
            exact Or.inr (Or.inr (Or.inl ⟨d, rfl⟩))

/-- Classification of every event a run of the validated script can
perform: a directory probe of the resolved target directory, a (suppressed)
logging call at ERROR or INFO level, the one GET request with timeout 30,
an open/write of the artifact file, or the one installer spawn with the
fixed argument vector. -/
def ValidatedEvent (td msi url token : String) (e : Event) : Prop :=
  e = Event.probe td
  ∨ (∃ m, e = Event.logCall 40 m) ∨ (∃ m, e = Event.logCall 20 m)
  ∨ e = Event.netGet url (some 30)
  ∨ e = Event.fileOpenW msi
  ∨ (∃ d, e = Event.fileWrite msi d)
  ∨ e = Event.spawn (Validated.install_command msi td token)

namespace ValidatedEvent

theorem ofProbe (td msi url token : String) :
    ValidatedEvent td msi url token (Event.probe td) := Or.inl rfl

theorem ofLog40 (td msi url token m : String) :
    ValidatedEvent td msi url token (Event.logCall 40 m) := Or.inr (Or.inl ⟨m, rfl⟩)

theorem ofLog20 (td msi url token m : String) :
    ValidatedEvent td msi url token (Event.logCall 20 m) :=
  Or.inr (Or.inr (Or.inl ⟨m, rfl⟩))

theorem ofNet (td msi url token : String) :
    ValidatedEvent td msi url token (Event.netGet url (some 30)) :=
  Or.inr (Or.inr (Or.inr (Or.inl rfl)))

theorem ofDl (td msi url token : String) (env : Env) (fs : FS) (e : Event)
    (h : e ∈ (Validated.download_file url msi env fs).2.1) :
    ValidatedEvent td msi url token e := by
  rcases dl_events url msi env fs e h with h1 | h1 | ⟨d, h1⟩ | ⟨m, h1⟩
  · exact h1 ▸ ofNet td msi url token
  · exact Or.inr (Or.inr (Or.inr (Or.inr (Or.inl h1))))
  · exact Or.inr (Or.inr (Or.inr (Or.inr (Or.inr (Or.inl ⟨d, h1⟩)))))
  · exact h1 ▸ ofLog40 td msi url token m

theorem ofIns (td msi url token : String) (env : Env) (e : Event)
    (h : e ∈ (Validated.install_msi msi td token env).1) :
    ValidatedEvent td msi url token e := by
  unfold Validated.install_msi at h
  by_cases hz : env.installExit = 0
  · rw [if_pos hz] at h
    simp only [List.mem_singleton] at h
    exact Or.inr (Or.inr (Or.inr (Or.inr (Or.inr (Or.inr h)))))
  · rw [if_neg hz] at h
    simp only [List.mem_cons, List.mem_singleton] at h
    rcases h with h | h | h
    · exact Or.inr (Or.inr (Or.inr (Or.inr (Or.inr (Or.inr h)))))
    · exact h ▸ ofLog40 td msi url token Validated.msiFailMsg
    · simp at h

end ValidatedEvent

theorem validated_run_events (a : String → String) (req : Validated.Request)
    (env : Env) (fs : FS) :
    ∀ e ∈ (Validated.run a req env fs).2.2,
      ValidatedEvent (a req.target_directory)
        ((a req.target_directory) ++ ("/") ++ ("agentInstaller.msi"))
        req.url req.token e := by
  intro e he
  set td := a req.target_directory with htd
  set msi := td ++ ("/") ++ ("agentInstaller.msi") with hmsi
  unfold Validated.run at he
  rw [← htd] at he
  by_cases h1 : urlSchemeOk req.url = false
  · rw [if_pos h1] at he
    simp only [List.mem_singleton] at he
    exact he ▸ ValidatedEvent.ofLog40 td msi req.url req.token _
  · rw [if_neg h1] at he
    by_cases h2 : req.token.length < 10
    · rw [if_pos h2] at he
      simp only [List.mem_singleton] at he
      exact he ▸ ValidatedEvent.ofLog40 td msi req.url req.token _
    · rw [if_neg h2] at he
      by_cases h3 : tokenMatch req.token = false
      · rw [if_pos h3] at he
        simp only [List.mem_singleton] at he
        exact he ▸ ValidatedEvent.ofLog40 td msi req.url req.token _
      · rw [if_neg h3] at he
        by_cases h4 : env.isdir td = false
        · rw [if_pos h4] at he
          simp only [List.mem_cons, List.mem_singleton] at he
          rcases he with h | h | h
          · exact h ▸ ValidatedEvent.ofProbe td msi req.url req.token
          · exact h ▸ ValidatedEvent.ofLog40 td msi req.url req.token _
          · simp at h
        · rw [if_neg h4] at he
          by_cases h5 : env.writable td = false
          · rw [if_pos h5] at he
            simp only [List.mem_cons, List.mem_singleton] at he
            rcases he with h | h | h | h
            · exact h ▸ ValidatedEvent.ofProbe td msi req.url req.token
            · exact h ▸ ValidatedEvent.ofProbe td msi req.url req.token
            · exact h ▸ ValidatedEvent.ofLog40 td msi req.url req.token _
            · simp at h
          · rw [if_neg h5] at he
            rw [← hmsi] at he
            simp only [] at he
            rcases hdl : (Validated.download_file req.url msi env fs).2.2 with _ | e1
            · rw [hdl] at he
              rcases hins : (Validated.install_msi msi td req.token env).2 with _ | e2
              · rw [hins] at he
                simp only [List.append_assoc, List.cons_append, List.nil_append,
                  List.mem_cons, List.mem_append, List.mem_singleton,
                  List.not_mem_nil, or_false] at he
                rcases he with h | h | h | h | h | h | h | h
                · exact h ▸ ValidatedEvent.ofProbe td msi req.url req.token
                · exact h ▸ ValidatedEvent.ofProbe td msi req.url req.token
                · exact h ▸ ValidatedEvent.ofLog20 td msi req.url req.token _
                · exact ValidatedEvent.ofDl td msi req.url req.token env fs e h
                · exact h ▸ ValidatedEvent.ofLog20 td msi req.url req.token _
                · exact h ▸ ValidatedEvent.ofLog20 td msi req.url req.token _
                · exact ValidatedEvent.ofIns td msi req.url req.token env e h
                · exact h ▸ ValidatedEvent.ofLog20 td msi req.url req.token _
              · rw [hins] at he
                simp only [List.append_assoc, List.cons_append, List.nil_append,
                  List.mem_cons, List.mem_append, List.mem_singleton,
                  List.not_mem_nil, or_false] at he
                rcases he with h | h | h | h | h | h | h | h
                · exact h ▸ ValidatedEvent.ofProbe td msi req.url req.token
                · exact h ▸ ValidatedEvent.ofProbe td msi req.url req.token
                · exact h ▸ ValidatedEvent.ofLog20 td msi req.url req.token _
                · exact ValidatedEvent.ofDl td msi req.url req.token env fs e h
                · exact h ▸ ValidatedEvent.ofLog20 td msi req.url req.token _
                · exact h ▸ ValidatedEvent.ofLog20 td msi req.url req.token _
                · exact ValidatedEvent.ofIns td msi req.url req.token env e h
                · exact h ▸ ValidatedEvent.ofLog40 td msi req.url req.token _
            · rw [hdl] at he
              simp only [List.append_assoc, List.cons_append, List.nil_append,
                List.mem_cons, List.mem_append, List.mem_singleton,
                List.not_mem_nil, or_false] at he
              rcases he with h | h | h | h | h
              · exact h ▸ ValidatedEvent.ofProbe td msi req.url req.token
              · exact h ▸ ValidatedEvent.ofProbe td msi req.url req.token
              · exact h ▸ ValidatedEvent.ofLog20 td msi req.url req.token _
              · exact ValidatedEvent.ofDl td msi req.url req.token env fs e h
              · exact h ▸ ValidatedEvent.ofLog40 td msi req.url req.token _

theorem writeChunks_false_flatten (path : String) :
    ∀ (cs : List (List Nat)) (k : Option Nat),
      (writeChunks path cs k).2.2 = false → (writeChunks path cs k).2.1 = cs.flatten := by
  intro cs
  induction cs with
  | nil => intro k _; simp [writeChunks]
  | cons c cs ih =>
    intro k hb
    match k with
    | none =>
      simp only [writeChunks] at hb ⊢
      rw [ih none hb]
      simp
    | some 0 => simp [writeChunks] at hb
    | some (j + 1) =>
      simp only [writeChunks] at hb ⊢
      rw [ih (some j) hb]
      simp

/-- No run of the validated script emits any console output: it has no
`print` calls and all its logging calls are below the configured CRITICAL
root level. -/
theorem validated_run_silent (a : String → String) (req : Validated.Request)
    (env : Env) (fs : FS) :
    visibleOutput ((Validated.run a req env fs).2.2) = [] := by
  unfold visibleOutput
  apply List.filterMap_eq_nil_iff.mpr
  intro e he
  rcases validated_run_events a req env fs e he with
    h | ⟨m, h⟩ | ⟨m, h⟩ | h | h | ⟨d, h⟩ | h <;>
    subst h <;> simp [emits, rootLogLevel]

theorem dl_success (u p : String) (env : Env) (fs : FS) (status : Nat)
    (chunks : List (List Nat)) (hf : env.fetch = FetchBehavior.resp status chunks false)
    (hs : ¬(400 ≤ status)) (hw : env.writeFailAt = none) :
    Validated.download_file u p env fs =
      (setFile fs p chunks.flatten,
       [Event.netGet u (some 30), Event.fileOpenW p] ++ (writeChunks p chunks none).1,
       none) := by
  unfold Validated.download_file
  rw [hf]
  simp only []
  rw [if_neg hs, hw]
  have h1 := writeChunks_complete p chunks
  simp only [h1.2, h1.1, Bool.false_eq_true, if_false, ite_false]

theorem dl_http (u p : String) (env : Env) (fs : FS) (status : Nat)
    (chunks : List (List Nat)) (intr : Bool)
    (hf : env.fetch = FetchBehavior.resp status chunks intr) (hs : 400 ≤ status) :
    Validated.download_file u p env fs =
      (fs, [Event.netGet u (some 30), Event.logCall 40 Validated.dlFailMsg],
       some (FetchError.httpStatus status)) := by
  unfold Validated.download_file
  rw [hf]
  simp only []
  rw [if_pos hs]

theorem ins_fail (p td tok : String) (env : Env) (hc : env.installExit ≠ 0) :
    Validated.install_msi p td tok env =
      ([Event.spawn (Validated.install_command p td tok),
        Event.logCall 40 Validated.msiFailMsg],
       some (InstallError.nonZeroExit env.installExit)) := by
  unfold Validated.install_msi
  rw [if_neg hc]

/-- Empty filesystem used by the concrete evaluations below. -/
def fs0 : FS := fun _ => none

/-- A token accepted by the full token pattern (the spec's scenario A). -/
def tok39 : String := ("us:AAAAAAAA-BBBB-CCCC-DDDD-EEEEEEEEEEEE")

/-- A well-formed request: accepted scheme, pattern-matching token. -/
def reqValid : Validated.Request :=
  ⟨("https://example.com/a.msi"), ("/tmp/valid"), tok39⟩

/-- Directory exists and is writable; 200 response with two 3-byte chunks;
installer succeeds. -/
def envAllOk : Env :=
  ⟨fun _ => true, fun _ => true,
   FetchBehavior.resp 200 [[1, 2, 3], [4, 5, 6]] false, none, 0⟩

/-- Target directory does not exist. -/
def envDirMissing : Env :=
  ⟨fun _ => false, fun _ => true,
   FetchBehavior.resp 200 [[1]] false, none, 0⟩

/-- Target directory exists but is not writable. -/
def envDirRO : Env :=
  ⟨fun _ => true, fun _ => false,
   FetchBehavior.resp 200 [[1]] false, none, 0⟩

/-- The remote server answers 404. -/
def env404 : Env :=
  ⟨fun _ => true, fun _ => true, FetchBehavior.resp 404 [] false, none, 0⟩

/-- Download succeeds; the installer exits with status 1603. -/
def envInstall1603 : Env :=
  ⟨fun _ => true, fun _ => true,
   FetchBehavior.resp 200 [[1, 2, 3], [4, 5, 6]] false, none, 1603⟩

/-- The second `file.write` raises `IOError` mid-stream. -/
def envWriteFail : Env :=
  ⟨fun _ => true, fun _ => true,
   FetchBehavior.resp 200 [[1, 2, 3], [4, 5, 6]] false, some 1, 0⟩

/-- Legacy environment: `.env` exists (empty mapping), download succeeds,
installer exits with status 1603. -/
def lenv1603 : Legacy.Env :=
  ⟨some [], fun _ => true, FetchBehavior.resp 200 [[1]] false, none,
   ("<requests exception>"), ("<io exception>"), 1603⟩

/-- Legacy environment: `.env` exists (empty mapping), everything
succeeds. -/
def lenvOk : Legacy.Env :=
  ⟨some [], fun _ => true, FetchBehavior.resp 200 [[1]] false, none,
   ("<requests exception>"), ("<io exception>"), 0⟩

theorem run_branch_urlScheme (a : String → String) (req : Validated.Request)
    (env : Env) (fs : FS) (h1 : urlSchemeOk req.url = false) :
    Validated.run a req env fs =
      (Outcome.failed FailReason.badURLScheme, fs,
       [Event.logCall 40 Validated.urlErrMsg]) := by
  unfold Validated.run
  rw [if_pos h1]

theorem run_branch_tokenLen (a : String → String) (req : Validated.Request)
    (env : Env) (fs : FS) (h1 : urlSchemeOk req.url = true)
    (h2 : req.token.length < 10) :
    Validated.run a req env fs =
      (Outcome.failed FailReason.badTokenFormat, fs,
       [Event.logCall 40 Validated.tokenLenErrMsg]) := by
  unfold Validated.run
  rw [if_neg (by simp [h1]), if_pos h2]

theorem run_branch_tokenFmt (a : String → String) (req : Validated.Request)
    (env : Env) (fs : FS) (h1 : urlSchemeOk req.url = true)
    (h2 : 10 ≤ req.token.length) (h3 : tokenMatch req.token = false) :
    Validated.run a req env fs =
      (Outcome.failed FailReason.badTokenFormat, fs,
       [Event.logCall 40 Validated.tokenFmtErrMsg]) := by
  unfold Validated.run
  rw [if_neg (by simp [h1]), if_neg (by omega), if_pos h3]

theorem run_branch_dirMissing (a : String → String) (req : Validated.Request)
    (env : Env) (fs : FS) (h1 : urlSchemeOk req.url = true)
    (h2 : 10 ≤ req.token.length) (h3 : tokenMatch req.token = true)
    (h4 : env.isdir (a req.target_directory) = false) :
    Validated.run a req env fs =
      (Outcome.failed FailReason.targetDirectoryMissing, fs,
       [Event.probe (a req.target_directory),
        Event.logCall 40 (Validated.dirMissingMsg (a req.target_directory))]) := by
  unfold Validated.run
  rw [if_neg (by simp [h1]), if_neg (by omega), if_neg (by simp [h3]), if_pos h4]

theorem run_branch_dirRO (a : String → String) (req : Validated.Request)
    (env : Env) (fs : FS) (h1 : urlSchemeOk req.url = true)
    (h2 : 10 ≤ req.token.length) (h3 : tokenMatch req.token = true)
    (h4 : env.isdir (a req.target_directory) = true)
    (h5 : env.writable (a req.target_directory) = false) :
    Validated.run a req env fs =
      (Outcome.failed FailReason.targetDirectoryNotWritable, fs,
       [Event.probe (a req.target_directory), Event.probe (a req.target_directory),
        Event.logCall 40 (Validated.dirNotWritableMsg (a req.target_directory))]) := by
  unfold Validated.run
  rw [if_neg (by simp [h1]), if_neg (by omega), if_neg (by simp [h3]),
      if_neg (by simp [h4]), if_pos h5]

/-- Claim C4 (confirmed).  Validation performs its checks in a fixed order
with short-circuit on the first failure: first the URL scheme (else
`badURLScheme`), then the token minimum-length pre-filter followed by the
full pattern match (both must pass, else `badTokenFormat`), then the target
directory resolved to an absolute path — existence first, then
writability.  In every validation-failure branch the run's trace holds only
the failing check's probe and logging events — no network request, no file
access and no child process — and the filesystem is returned untouched. -/
theorem c4_validation_ordered (a : String → String) (req : Validated.Request)
    (env : Env) (fs : FS) :
    (urlSchemeOk req.url = false →
      Validated.run a req env fs =
        (Outcome.failed FailReason.badURLScheme, fs,
         [Event.logCall 40 Validated.urlErrMsg])) ∧
    (urlSchemeOk req.url = true → req.token.length < 10 →
      Validated.run a req env fs =
        (Outcome.failed FailReason.badTokenFormat, fs,
         [Event.logCall 40 Validated.tokenLenErrMsg])) ∧
    (urlSchemeOk req.url = true → 10 ≤ req.token.length → tokenMatch req.token = false →
      Validated.run a req env fs =
        (Outcome.failed FailReason.badTokenFormat, fs,
         [Event.logCall 40 Validated.tokenFmtErrMsg])) ∧
    (urlSchemeOk req.url = true → 10 ≤ req.token.length → tokenMatch req.token = true →
      env.isdir (a req.target_directory) = false →
      Validated.run a req env fs =
        (Outcome.failed FailReason.targetDirectoryMissing, fs,
         [Event.probe (a req.target_directory),
          Event.logCall 40 (Validated.dirMissingMsg (a req.target_directory))])) ∧
    (urlSchemeOk req.url = true → 10 ≤ req.token.length → tokenMatch req.token = true →
      env.isdir (a req.target_directory) = true →
      env.writable (a req.target_directory) = false →
      Validated.run a req env fs =
        (Outcome.failed FailReason.targetDirectoryNotWritable, fs,
         [Event.probe (a req.target_directory), Event.probe (a req.target_directory),
          Event.logCall 40 (Validated.dirNotWritableMsg (a req.target_directory))])) := by
  exact ⟨run_branch_urlScheme a req env fs,
         fun h1 h2 => run_branch_tokenLen a req env fs h1 h2,
         fun h1 h2 h3 => run_branch_tokenFmt a req env fs h1 h2 h3,
         fun h1 h2 h3 h4 => run_branch_dirMissing a req env fs h1 h2 h3 h4,
         fun h1 h2 h3 h4 h5 => run_branch_dirRO a req env fs h1 h2 h3 h4 h5⟩

/-- Witness for C4 at a concrete input: an existing but unwritable target
directory is rejected as `targetDirectoryNotWritable` after every earlier
check passed. -/
theorem c4_witness :
    Validated.run id reqValid envDirRO fs0 =
      (Outcome.failed FailReason.targetDirectoryNotWritable, fs0,
       [Event.probe (("/tmp/valid")), Event.probe (("/tmp/valid")),
        Event.logCall 40 (Validated.dirNotWritableMsg (("/tmp/valid")))]) :=
  (c4_validation_ordered id reqValid envDirRO fs0).2.2.2.2
    (by decide) (by decide) (by decide) rfl rfl

/-- Claim C2 (corrected; amended form).  For every request whose token does
not match the full pattern: if the URL scheme check passes, validation
fails with `badTokenFormat`; and in every case (whatever the URL) the run
performs no fetch and no install — its trace holds no network request and
no child-process spawn. -/
theorem c2_bad_token_rejected (a : String → String) (req : Validated.Request)
    (env : Env) (fs : FS) (htok : tokenMatch req.token = false) :
    (urlSchemeOk req.url = true →
      (Validated.run a req env fs).1 = Outcome.failed FailReason.badTokenFormat) ∧
    stageEvents ((Validated.run a req env fs).2.2) = [] := by
  by_cases h1 : urlSchemeOk req.url = false
  · constructor
    · intro hu
      rw [hu] at h1
      cases h1
    · unfold Validated.run stageEvents
      rw [if_pos h1]
      simp [isStageEvent]
  · by_cases h2 : req.token.length < 10
    · constructor
      · intro _
        unfold Validated.run
        rw [if_neg h1, if_pos h2]
      · unfold Validated.run stageEvents
        rw [if_neg h1, if_pos h2]
        simp [isStageEvent]
    · constructor
      · intro _
        unfold Validated.run
        rw [if_neg h1, if_neg h2, if_pos htok]
      · unfold Validated.run stageEvents
        rw [if_neg h1, if_neg h2, if_pos htok]
        simp [isStageEvent]

/-- Claim C2 counterexample to the claim as stated: a request whose token
fails the pattern but whose URL also fails the scheme check is rejected
with `badURLScheme`, not `badTokenFormat`, because the URL check
short-circuits first. -/
theorem c2_counterexample :
    tokenMatch ("short") = false ∧
    (Validated.run id ⟨("ftp://example.com/a.msi"), ("/tmp/valid"), ("short")⟩
        envAllOk fs0).1 = Outcome.failed FailReason.badURLScheme ∧
    FailReason.badURLScheme ≠ FailReason.badTokenFormat := by
  refine ⟨by decide, by decide, by decide⟩

/-- Witness for C2 at a concrete input: good scheme, non-matching token. -/
theorem c2_witness :
    (Validated.run id ⟨("https://example.com/a.msi"), ("/tmp/valid"), ("short")⟩
        envAllOk fs0).1 = Outcome.failed FailReason.badTokenFormat ∧
    stageEvents ((Validated.run id
        ⟨("https://example.com/a.msi"), ("/tmp/valid"), ("short")⟩ envAllOk fs0).2.2) = [] :=
  ⟨(c2_bad_token_rejected id ⟨("https://example.com/a.msi"), ("/tmp/valid"), ("short")⟩
      envAllOk fs0 (by decide)).1 (by decide),
   (c2_bad_token_rejected id ⟨("https://example.com/a.msi"), ("/tmp/valid"), ("short")⟩
      envAllOk fs0 (by decide)).2⟩

/-- Claim C10 (corrected; amended form).  Every token accepted by the full
pattern has length exactly 39 (not 50) — or 40 when it ends in the trailing
newline Python's end anchor tolerates; hence the minimum-length pre-filter
(reject when length < 10) never rejects a pattern-matching token, and the
composed two-step token validation accepts exactly the pattern's
language. -/
theorem c10_token_length (t : String) :
    (tokenMatch t = true → t.length = 39 ∨ t.length = 40) ∧
    ((!decide (t.length < 10)) && tokenMatch t) = tokenMatch t := by
  constructor
  · exact tokenMatch_length t
  · cases hm : tokenMatch t with
    | true =>
      have hl := tokenMatch_length t hm
      have hnl : ¬(t.length < 10) := by omega
      simp [hnl]
    | false => simp

/-- Claim C10 counterexample to the claim as stated: a pattern-matching token
of length 39, not 50. -/
theorem c10_counterexample : tokenMatch tok39 = true ∧ tok39.length ≠ 50 := by
  refine ⟨by decide, by decide⟩

/-- Witness for C10 at a concrete token. -/
theorem c10_witness :
    (tok39.length = 39 ∨ tok39.length = 40) ∧
    ((!decide (tok39.length < 10)) && tokenMatch tok39) = tokenMatch tok39 :=
  ⟨(c10_token_length tok39).1 (by decide), (c10_token_length tok39).2⟩

/-- Claim C7 (corrected; amended form).  A missing target directory fails as
`targetDirectoryMissing` and an existing but unwritable one as
`targetDirectoryNotWritable` — distinct reasons in the run's internal
outcome — but every failure of the validated script is reported to its
caller as exit status 1 with no console output (all of its `logging.error`
messages lie below the configured CRITICAL root level), so the caller
cannot tell the failure categories apart from the observable outcome. -/
theorem c7_directory_failures (a : String → String) (req : Validated.Request)
    (env : Env) (fs : FS) :
    (urlSchemeOk req.url = true → 10 ≤ req.token.length → tokenMatch req.token = true →
      env.isdir (a req.target_directory) = false →
      (Validated.run a req env fs).1 = Outcome.failed FailReason.targetDirectoryMissing) ∧
    (urlSchemeOk req.url = true → 10 ≤ req.token.length → tokenMatch req.token = true →
      env.isdir (a req.target_directory) = true →
      env.writable (a req.target_directory) = false →
      (Validated.run a req env fs).1 = Outcome.failed FailReason.targetDirectoryNotWritable) ∧
    FailReason.targetDirectoryMissing ≠ FailReason.targetDirectoryNotWritable ∧
    visibleOutput ((Validated.run a req env fs).2.2) = [] ∧
    (∀ r, (Validated.run a req env fs).1 = Outcome.failed r →
      exitCode (Validated.run a req env fs).1 = 1) := by
  refine ⟨?_, ?_, by decide, validated_run_silent a req env fs, ?_⟩
  · intro h1 h2 h3 h4
    rw [run_branch_dirMissing a req env fs h1 h2 h3 h4]
  · intro h1 h2 h3 h4 h5
    rw [run_branch_dirRO a req env fs h1 h2 h3 h4 h5]
  · intro r h
    rw [h]
    rfl

/-- Claim C7 counterexample to the claim as stated: a run against a missing
directory and a run against an existing but unwritable one produce
identical observable outcomes — exit status 1 and no console output — so
the caller cannot distinguish the two failure categories, even though the
internal reasons differ. -/
theorem c7_counterexample :
    (exitCode (Validated.run id reqValid envDirMissing fs0).1,
     visibleOutput ((Validated.run id reqValid envDirMissing fs0).2.2))
      = (exitCode (Validated.run id reqValid envDirRO fs0).1,
         visibleOutput ((Validated.run id reqValid envDirRO fs0).2.2)) ∧
    (Validated.run id reqValid envDirMissing fs0).1
        = Outcome.failed FailReason.targetDirectoryMissing ∧
    (Validated.run id reqValid envDirRO fs0).1
        = Outcome.failed FailReason.targetDirectoryNotWritable := by
  refine ⟨by decide, by decide, by decide⟩

/-- Witness for C7 at a concrete input (missing directory). -/
theorem c7_witness :
    (Validated.run id reqValid envDirMissing fs0).1
        = Outcome.failed FailReason.targetDirectoryMissing ∧
    visibleOutput ((Validated.run id reqValid envDirMissing fs0).2.2) = [] ∧
    exitCode (Validated.run id reqValid envDirMissing fs0).1 = 1 :=
  ⟨(c7_directory_failures id reqValid envDirMissing fs0).1
      (by decide) (by decide) (by decide) rfl,
   (c7_directory_failures id reqValid envDirMissing fs0).2.2.2.1,
   (c7_directory_failures id reqValid envDirMissing fs0).2.2.2.2
      FailReason.targetDirectoryMissing
      ((c7_directory_failures id reqValid envDirMissing fs0).1
        (by decide) (by decide) (by decide) rfl)⟩

/-- Claim C3 (corrected; amended form).  A fetch that fails before the HTTP
status check (request-time transport failure, or a non-success status)
leaves the filesystem untouched; after a 2xx/3xx status the file at the
final artifact name always holds exactly the bytes the chunk loop wrote,
and on success that is the complete streamed byte string — but a fetch
interrupted by a mid-stream write failure (or transport break) leaves the
partial prefix visible under the final artifact name, because the script
streams directly into the final name. -/
theorem c3_fetch_file_state (url p : String) (env : Env) (fs : FS) :
    (env.fetch = FetchBehavior.connectFail →
      Validated.download_file url p env fs =
        (fs, [Event.netGet url (some 30), Event.logCall 40 Validated.dlFailMsg],
         some FetchError.transportFailed)) ∧
    (∀ status chunks intr, env.fetch = FetchBehavior.resp status chunks intr →
      400 ≤ status →
      (Validated.download_file url p env fs).1 = fs ∧
      (Validated.download_file url p env fs).2.2 = some (FetchError.httpStatus status)) ∧
    (∀ status chunks intr, env.fetch = FetchBehavior.resp status chunks intr →
      ¬(400 ≤ status) →
      (Validated.download_file url p env fs).1 p
          = some (writeChunks p chunks env.writeFailAt).2.1 ∧
      ((Validated.download_file url p env fs).2.2 = none →
        (Validated.download_file url p env fs).1 p = some chunks.flatten)) := by
  refine ⟨?_, ?_, ?_⟩
  · intro h
    unfold Validated.download_file
    rw [h]
  · intro status chunks intr h hs
    rw [dl_http url p env fs status chunks intr h hs]
    exact ⟨rfl, rfl⟩
  · intro status chunks intr h hs
    unfold Validated.download_file
    rw [h]
    simp only []
    rw [if_neg hs]
    cases hw : (writeChunks p chunks env.writeFailAt).2.2 with
    | true =>
      simp only [hw, ite_true]
      constructor
      · simp [setFile]
      · intro hnone
        simp at hnone
    | false =>
      cases intr with
      | true =>
        simp only [hw, Bool.false_eq_true, ite_false, ite_true]
        constructor
        · simp [setFile]
        · intro hnone
          simp at hnone
      | false =>
        simp only [hw, Bool.false_eq_true, ite_false]
        have hfl := writeChunks_false_flatten p chunks env.writeFailAt hw
        constructor
        · simp [setFile]
        · intro _
          simp [setFile, hfl]

/-- Claim C3 counterexample to the claim as stated: a 200 response streams
two 3-byte chunks, the second write raises `IOError`; the fetch fails with
`writeFailed`, yet a 3-byte file is visible under the final artifact name
while 6 bytes were streamed from the source. -/
theorem c3_counterexample :
    (Validated.download_file ("https://example.com/a.msi")
        ("/tmp/valid/agentInstaller.msi") envWriteFail fs0).2.2
      = some FetchError.writeFailed ∧
    (Validated.download_file ("https://example.com/a.msi")
        ("/tmp/valid/agentInstaller.msi") envWriteFail fs0).1
        ("/tmp/valid/agentInstaller.msi") = some [1, 2, 3] ∧
    ([1, 2, 3] : List Nat).length
      ≠ (([[1, 2, 3], [4, 5, 6]] : List (List Nat)).flatten).length := by
  refine ⟨by decide, by decide, by decide⟩

/-- Witness for C3 at a concrete input: a successful fetch leaves the
complete streamed bytes at the artifact path. -/
theorem c3_witness :
    (Validated.download_file ("https://example.com/a.msi")
        ("/tmp/valid/agentInstaller.msi") envAllOk fs0).1
        ("/tmp/valid/agentInstaller.msi")
      = some (([[1, 2, 3], [4, 5, 6]] : List (List Nat)).flatten) :=
  ((c3_fetch_file_state ("https://example.com/a.msi")
      ("/tmp/valid/agentInstaller.msi") envAllOk fs0).2.2 200 [[1, 2, 3], [4, 5, 6]] false
      rfl (by decide)).2 (by decide)

/-- Claim C5 (confirmed).  When validation passes, the fetch succeeds, and
the installer child process exits with a non-zero status, the run's outcome
is `failed (installError (nonZeroExit code))` carrying that status; the
downloaded artifact is still on disk unmodified — the artifact path holds
the full streamed byte string and no other path changed (the pipeline never
deletes the artifact) — and the installer spawn is the last stage event of
the trace, so no further stage runs. -/
theorem c5_install_nonzero (a : String → String) (req : Validated.Request)
    (env : Env) (fs : FS) (status : Nat) (chunks : List (List Nat))
    (h1 : urlSchemeOk req.url = true) (h2 : 10 ≤ req.token.length)
    (h3 : tokenMatch req.token = true)
    (h4 : env.isdir (a req.target_directory) = true)
    (h5 : env.writable (a req.target_directory) = true)
    (hf : env.fetch = FetchBehavior.resp status chunks false)
    (hs : ¬(400 ≤ status)) (hw : env.writeFailAt = none)
    (hc : env.installExit ≠ 0) :
    (Validated.run a req env fs).1
        = Outcome.failed (FailReason.installError (InstallError.nonZeroExit env.installExit)) ∧
    (Validated.run a req env fs).2.1
        ((a req.target_directory) ++ ("/") ++ ("agentInstaller.msi"))
        = some chunks.flatten ∧
    (∀ q, q ≠ (a req.target_directory) ++ ("/") ++ ("agentInstaller.msi") →
      (Validated.run a req env fs).2.1 q = fs q) ∧
    stageEvents ((Validated.run a req env fs).2.2)
      = [Event.netGet req.url (some 30),
         Event.spawn (Validated.install_command
           ((a req.target_directory) ++ ("/") ++ ("agentInstaller.msi"))
           (a req.target_directory) req.token)] := by
  have hrun : Validated.run a req env fs =
      (Outcome.failed (FailReason.installError (InstallError.nonZeroExit env.installExit)),
       setFile fs ((a req.target_directory) ++ ("/") ++ ("agentInstaller.msi")) chunks.flatten,
       [Event.probe (a req.target_directory), Event.probe (a req.target_directory),
        Event.logCall 20 ("Downloading MSI installer...")]
        ++ ([Event.netGet req.url (some 30),
             Event.fileOpenW ((a req.target_directory) ++ ("/") ++ ("agentInstaller.msi"))]
            ++ (writeChunks ((a req.target_directory) ++ ("/") ++ ("agentInstaller.msi"))
                 chunks none).1)
        ++ [Event.logCall 20 ("Download complete."),
            Event.logCall 20 ("Installing MSI installer...")]
        ++ [Event.spawn (Validated.install_command
              ((a req.target_directory) ++ ("/") ++ ("agentInstaller.msi"))
              (a req.target_directory) req.token),
            Event.logCall 40 Validated.msiFailMsg]
        ++ [Event.logCall 40 Validated.mainErrMsg]) := by
    unfold Validated.run
    rw [if_neg (by simp [h1]), if_neg (by omega), if_neg (by simp [h3]),
        if_neg (by simp [h4]), if_neg (by simp [h5])]
    simp only []
    rw [dl_success req.url
          ((a req.target_directory) ++ ("/") ++ ("agentInstaller.msi")) env fs status chunks
          hf hs hw,
        ins_fail ((a req.target_directory) ++ ("/") ++ ("agentInstaller.msi"))
          (a req.target_directory) req.token env hc]
  refine ⟨?_, ?_, ?_, ?_⟩
  · rw [hrun]
  · rw [hrun]
    simp [setFile]
  · intro q hq
    rw [hrun]
    simp [setFile, hq]
  · rw [hrun]
    simp [stageEvents, List.filter_append, isStageEvent]

/-- Witness for C5 at a concrete input: installer exits 1603 (spec
scenario E). -/
theorem c5_witness :
    (Validated.run id reqValid envInstall1603 fs0).1
        = Outcome.failed (FailReason.installError (InstallError.nonZeroExit 1603)) ∧
    (Validated.run id reqValid envInstall1603 fs0).2.1 ("/tmp/valid/agentInstaller.msi")
        = some [1, 2, 3, 4, 5, 6] ∧
    (Validated.run id reqValid envInstall1603 fs0).2.1 ("/tmp/other") = none ∧
    stageEvents ((Validated.run id reqValid envInstall1603 fs0).2.2)
      = [Event.netGet ("https://example.com/a.msi") (some 30),
         Event.spawn (Validated.install_command ("/tmp/valid/agentInstaller.msi")
           ("/tmp/valid") tok39)] :=
  ⟨(c5_install_nonzero id reqValid envInstall1603 fs0 200 [[1, 2, 3], [4, 5, 6]]
      (by decide) (by decide) (by decide) rfl rfl rfl (by decide) rfl (by decide)).1,
   (c5_install_nonzero id reqValid envInstall1603 fs0 200 [[1, 2, 3], [4, 5, 6]]
      (by decide) (by decide) (by decide) rfl rfl rfl (by decide) rfl (by decide)).2.1,
   (c5_install_nonzero id reqValid envInstall1603 fs0 200 [[1, 2, 3], [4, 5, 6]]
      (by decide) (by decide) (by decide) rfl rfl rfl (by decide) rfl (by decide)).2.2.1
      ("/tmp/other") (by decide),
   (c5_install_nonzero id reqValid envInstall1603 fs0 200 [[1, 2, 3], [4, 5, 6]]
      (by decide) (by decide) (by decide) rfl rfl rfl (by decide) rfl (by decide)).2.2.2⟩

/-- Claim C6 (confirmed).  Every installer spawn any run of the validated
script performs carries exactly the fixed argument vector: `msiexec`, `/i`,
the artifact path, `/l*v` with the verbose log destination,
`CUSTOMCONFIGPATH=` bound to the target directory, `CUSTOMTOKEN=` bound to
the token, and the non-interactive flags `/quiet` and `/qn` — identical for
every run up to the three bound values. -/
theorem c6_fixed_argv (a : String → String) (req : Validated.Request)
    (env : Env) (fs : FS) (argv : List String)
    (h : Event.spawn argv ∈ (Validated.run a req env fs).2.2) :
    argv = [("msiexec"), ("/i"),
            (a req.target_directory) ++ ("/") ++ ("agentInstaller.msi"),
            ("/l*v"), ("insight_agent_install_log.log"),
            ("CUSTOMCONFIGPATH=") ++ (a req.target_directory),
            ("CUSTOMTOKEN=") ++ req.token,
            ("/quiet"), ("/qn")] := by
  rcases validated_run_events a req env fs _ h with
    h1 | ⟨m, h1⟩ | ⟨m, h1⟩ | h1 | h1 | ⟨d, h1⟩ | h1
  · cases h1
  · cases h1
  · cases h1
  · cases h1
  · cases h1
  · cases h1
  · injection h1 with h2

/-- Witness for C6 at a concrete successful run. -/
theorem c6_witness :
    Validated.install_command ("/tmp/valid/agentInstaller.msi") ("/tmp/valid") tok39
      = [("msiexec"), ("/i"), ("/tmp/valid/agentInstaller.msi"),
         ("/l*v"), ("insight_agent_install_log.log"),
         ("CUSTOMCONFIGPATH=/tmp/valid"), ("CUSTOMTOKEN=") ++ tok39,
         ("/quiet"), ("/qn")] :=
  c6_fixed_argv id reqValid envAllOk fs0
    (Validated.install_command ("/tmp/valid/agentInstaller.msi") ("/tmp/valid") tok39)
    (by decide)

/-- Claim C9 (confirmed).  Every network request the validated script issues
carries the bounded timeout 30, which lies in the recommended 30–60 second
range; and when the server answers a non-success status (≥ 400, the statuses
`raise_for_status` rejects) on a request that passed validation, the run
fails with `fetchError (httpStatus code)` carrying the status and spawns no
installer process. -/
theorem c9_timeout_and_status (a : String → String) (req : Validated.Request)
    (env : Env) (fs : FS) :
    (∀ u tmo, Event.netGet u tmo ∈ (Validated.run a req env fs).2.2 →
      tmo = some 30 ∧ 30 ≤ 30 ∧ 30 ≤ 60) ∧
    (∀ status chunks intr,
      env.fetch = FetchBehavior.resp status chunks intr → 400 ≤ status →
      urlSchemeOk req.url = true → 10 ≤ req.token.length → tokenMatch req.token = true →
      env.isdir (a req.target_directory) = true →
      env.writable (a req.target_directory) = true →
      (Validated.run a req env fs).1
          = Outcome.failed (FailReason.fetchError (FetchError.httpStatus status)) ∧
      spawnArgs ((Validated.run a req env fs).2.2) = []) := by
  constructor
  · intro u tmo h
    rcases validated_run_events a req env fs _ h with
      h1 | ⟨m, h1⟩ | ⟨m, h1⟩ | h1 | h1 | ⟨d, h1⟩ | h1
    · cases h1
    · cases h1
    · cases h1
    · injection h1 with hu hto
      exact ⟨hto, by omega, by omega⟩
    · cases h1
    · cases h1
    · cases h1
  · intro status chunks intr hf hs h1 h2 h3 h4 h5
    have hrun : Validated.run a req env fs =
        (Outcome.failed (FailReason.fetchError (FetchError.httpStatus status)), fs,
         [Event.probe (a req.target_directory), Event.probe (a req.target_directory),
          Event.logCall 20 ("Downloading MSI installer...")]
          ++ [Event.netGet req.url (some 30), Event.logCall 40 Validated.dlFailMsg]
          ++ [Event.logCall 40 Validated.mainErrMsg]) := by
      unfold Validated.run
      rw [if_neg (by simp [h1]), if_neg (by omega), if_neg (by simp [h3]),
          if_neg (by simp [h4]), if_neg (by simp [h5])]
      simp only []
      rw [dl_http req.url
            ((a req.target_directory) ++ ("/") ++ ("agentInstaller.msi")) env fs status chunks
            intr hf hs]
    constructor
    · rw [hrun]
    · rw [hrun]
      simp [spawnArgs, argvOf]

/-- Witness for C9 at a concrete input: the server answers 404 (spec
scenario D). -/
theorem c9_witness :
    ((some 30 : Option Nat) = some 30 ∧ 30 ≤ 30 ∧ 30 ≤ 60) ∧
    (Validated.run id reqValid env404 fs0).1
        = Outcome.failed (FailReason.fetchError (FetchError.httpStatus 404)) ∧
    spawnArgs ((Validated.run id reqValid env404 fs0).2.2) = [] :=
  ⟨(c9_timeout_and_status id reqValid env404 fs0).1 ("https://example.com/a.msi")
      (some 30) (by decide),
   ((c9_timeout_and_status id reqValid env404 fs0).2 404 [] false rfl (by decide)
      (by decide) (by decide) (by decide) rfl rfl).1,
   ((c9_timeout_and_status id reqValid env404 fs0).2 404 [] false rfl (by decide)
      (by decide) (by decide) (by decide) rfl rfl).2⟩

theorem validated_run_paths (a : String → String) (req : Validated.Request)
    (env : Env) (fs : FS) :
    ∀ p ∈ pathsTouched ((Validated.run a req env fs).2.2),
      p = (a req.target_directory) ++ ("/") ++ ("agentInstaller.msi") := by
  intro p hp
  rcases List.mem_filterMap.mp hp with ⟨e, he, hf⟩
  rcases validated_run_events a req env fs e he with
    h | ⟨m, h⟩ | ⟨m, h⟩ | h | h | ⟨d, h⟩ | h
  · subst h; simp [pathOf] at hf
  · subst h; simp [pathOf] at hf
  · subst h; simp [pathOf] at hf
  · subst h; simp [pathOf] at hf
  · subst h; simp [pathOf] at hf; exact hf.symm
  · subst h; simp [pathOf] at hf; exact hf.symm
  · subst h; simp [pathOf] at hf

theorem resolveVal_events (arg envv : Option String) (ptext presp : String) :
    ∀ e ∈ (Legacy.resolveVal arg envv ptext presp).2, e = Event.prompt ptext := by
  intro e he
  unfold Legacy.resolveVal at he
  rcases h1 : Legacy.truthy arg with _ | v
  · rw [h1] at he
    simp only [] at he
    rcases h2 : Legacy.truthy envv with _ | w
    · rw [h2] at he
      simp at he
      exact he
    · rw [h2] at he
      simp at he
  · rw [h1] at he
    simp at he

theorem load_env_events (lenv : Legacy.Env) :
    ∀ e ∈ (Legacy.load_env_file lenv).2,
      e = Event.probe (".env") ∨ e = Event.fileRead (".env") := by
  intro e he
  unfold Legacy.load_env_file at he
  rcases h1 : lenv.envFile with _ | vars
  · rw [h1] at he
    simp at he
    exact Or.inl he
  · rw [h1] at he
    simp at he
    rcases he with he | he
    · exact Or.inl he
    · exact Or.inr he

theorem legacy_dl_events (u p : String) (lenv : Legacy.Env) (fs : FS) :
    ∀ e ∈ (Legacy.download_file u p lenv fs).2.1,
      e = Event.netGet u none ∨ e = Event.fileOpenW p
      ∨ ∃ d, e = Event.fileWrite p d := by
  intro e he
  unfold Legacy.download_file at he
  rcases hf : lenv.fetch with _ | ⟨status, chunks, intr⟩
  · rw [hf] at he
    simp at he
    exact Or.inl he
  · rw [hf] at he
    simp only [] at he
    by_cases hs : 400 ≤ status
    · rw [if_pos hs] at he
      simp at he
      exact Or.inl he
    · rw [if_neg hs] at he
      cases hw : (writeChunks p chunks lenv.writeFailAt).2.2 with
      | true =>
        simp only [hw, ite_true, List.cons_append, List.nil_append, List.mem_cons] at he
        rcases he with h | h | h
        · exact Or.inl h
        · exact Or.inr (Or.inl h)
        · rcases writeChunks_events p chunks lenv.writeFailAt e h with ⟨d, rfl⟩
          exact Or.inr (Or.inr ⟨d, rfl⟩)
      | false =>
        cases intr with
        | true =>
          simp only [hw, Bool.false_eq_true, ite_false, ite_true,
            List.cons_append, List.nil_append, List.mem_cons] at he
          rcases he with h | h | h
          · exact Or.inl h
          · exact Or.inr (Or.inl h)
          · rcases writeChunks_events p chunks lenv.writeFailAt e h with ⟨d, rfl⟩
            exact Or.inr (Or.inr ⟨d, rfl⟩)
        | false =>
          simp only [hw, Bool.false_eq_true, ite_false,
            List.cons_append, List.nil_append, List.mem_cons] at he
          rcases he with h | h | h
          · exact Or.inl h
          · exact Or.inr (Or.inl h)
          · rcases writeChunks_events p chunks lenv.writeFailAt e h with ⟨d, rfl⟩
            exact Or.inr (Or.inr ⟨d, rfl⟩)

/-- Classification of the file-content accesses of a legacy-script run:
every event either touches no file contents, reads `./.env`, or opens/writes
the artifact file under the resolved target directory. -/
theorem legacy_run_fileEvents (a : String → String)
    (argUrl argTd argToken : Option String) (pu pt pk : String)
    (lenv : Legacy.Env) (lfs : FS) :
    ∀ e ∈ (Legacy.run a argUrl argTd argToken pu pt pk lenv lfs).2.2,
      pathOf e = none ∨ e = Event.fileRead (".env")
      ∨ e = Event.fileOpenW ((a ((Legacy.resolveVal argTd
            (Legacy.lookupVar (Legacy.load_env_file lenv).1 ("RAPID7_TARGET_DIRECTORY"))
            Legacy.tdPromptText pt).1)) ++ ("/") ++ ("agentInstaller.msi"))
      ∨ ∃ d, e = Event.fileWrite ((a ((Legacy.resolveVal argTd
            (Legacy.lookupVar (Legacy.load_env_file lenv).1 ("RAPID7_TARGET_DIRECTORY"))
            Legacy.tdPromptText pt).1)) ++ ("/") ++ ("agentInstaller.msi")) d := by
  intro e he
  unfold Legacy.run at he
  simp only [] at he
  set ld := Legacy.load_env_file lenv with hld
  set ru := Legacy.resolveVal argUrl (Legacy.lookupVar ld.1 ("RAPID7_URL"))
    Legacy.urlPromptText pu with hru
  set rt := Legacy.resolveVal argTd (Legacy.lookupVar ld.1 ("RAPID7_TARGET_DIRECTORY"))
    Legacy.tdPromptText pt with hrt
  set rk := Legacy.resolveVal argToken (Legacy.lookupVar ld.1 ("RAPID7_TOKEN"))
    Legacy.tokenPromptText pk with hrk
  set td := a rt.1 with htd
  set msi := td ++ ("/") ++ ("agentInstaller.msi") with hmsi
  have hpre : ∀ e2 ∈ ld.2 ++ ru.2 ++ rt.2 ++ rk.2,
      pathOf e2 = none ∨ e2 = Event.fileRead (".env") := by
    intro e2 h2
    simp only [List.mem_append, or_assoc] at h2
    rcases h2 with h2 | h2 | h2 | h2
    · rcases load_env_events lenv e2 h2 with h3 | h3
      · subst h3; exact Or.inl rfl
      · exact Or.inr h3
    · rw [resolveVal_events _ _ _ _ e2 h2]; exact Or.inl rfl
    · rw [resolveVal_events _ _ _ _ e2 h2]; exact Or.inl rfl
    · rw [resolveVal_events _ _ _ _ e2 h2]; exact Or.inl rfl
  have hdlc : ∀ e2 ∈ (Legacy.download_file ru.1 msi lenv lfs).2.1,
      pathOf e2 = none ∨ e2 = Event.fileRead (".env")
      ∨ e2 = Event.fileOpenW msi ∨ ∃ d, e2 = Event.fileWrite msi d := by
    intro e2 h2
    rcases legacy_dl_events ru.1 msi lenv lfs e2 h2 with h3 | h3 | ⟨d, h3⟩
    · subst h3; exact Or.inl rfl
    · exact Or.inr (Or.inr (Or.inl h3))
    · exact Or.inr (Or.inr (Or.inr ⟨d, h3⟩))
  by_cases hd : lenv.isdir td = false
  · rw [if_pos hd] at he
    rcases List.mem_append.mp he with h | h
    · rcases hpre e h with h3 | h3
      · exact Or.inl h3
      · exact Or.inr (Or.inl h3)
    · simp only [List.mem_cons, List.not_mem_nil, or_false] at h
      rcases h with h | h <;> (subst h; exact Or.inl rfl)
  · rw [if_neg hd] at he
    rcases hdl : (Legacy.download_file ru.1 msi lenv lfs).2.2 with _ | fe
    · rw [hdl] at he
      simp only [] at he
      by_cases hz : lenv.installExit = 0
      · rw [if_pos hz] at he
        simp only [List.append_assoc, List.mem_append, List.mem_cons,
          List.not_mem_nil, or_false, or_assoc] at he
        rcases he with h | h | h | h | h | h | h | h | h | h | h
        · rcases load_env_events lenv e h with h3 | h3
          · subst h3; exact Or.inl rfl
          · exact Or.inr (Or.inl h3)
        · rw [resolveVal_events _ _ _ _ e h]; exact Or.inl rfl
        · rw [resolveVal_events _ _ _ _ e h]; exact Or.inl rfl
        · rw [resolveVal_events _ _ _ _ e h]; exact Or.inl rfl
        · subst h; exact Or.inl rfl
        · subst h; exact Or.inl rfl
        · exact hdlc e h
        · subst h; exact Or.inl rfl
        · subst h; exact Or.inl rfl
        · subst h; exact Or.inl rfl
        · subst h; exact Or.inl rfl
      · rw [if_neg hz] at he
        simp only [List.append_assoc, List.mem_append, List.mem_cons,
          List.not_mem_nil, or_false, or_assoc] at he
        rcases he with h | h | h | h | h | h | h | h | h | h | h
        · rcases load_env_events lenv e h with h3 | h3
          · subst h3; exact Or.inl rfl
          · exact Or.inr (Or.inl h3)
        · rw [resolveVal_events _ _ _ _ e h]; exact Or.inl rfl
        · rw [resolveVal_events _ _ _ _ e h]; exact Or.inl rfl
        · rw [resolveVal_events _ _ _ _ e h]; exact Or.inl rfl
        · subst h; exact Or.inl rfl
        · subst h; exact Or.inl rfl
        · exact hdlc e h
        · subst h; exact Or.inl rfl
        · subst h; exact Or.inl rfl
        · subst h; exact Or.inl rfl
        · subst h; exact Or.inl rfl
    · rw [hdl] at he
      cases fe with
      | transportFailed =>
        simp only [] at he
        simp only [List.append_assoc, List.mem_append, List.mem_cons,
          List.not_mem_nil, or_false, or_assoc] at he
        rcases he with h | h | h | h | h | h | h | h
        · rcases load_env_events lenv e h with h3 | h3
          · subst h3; exact Or.inl rfl
          · exact Or.inr (Or.inl h3)
        · rw [resolveVal_events _ _ _ _ e h]; exact Or.inl rfl
        · rw [resolveVal_events _ _ _ _ e h]; exact Or.inl rfl
        · rw [resolveVal_events _ _ _ _ e h]; exact Or.inl rfl
        · subst h; exact Or.inl rfl
        · subst h; exact Or.inl rfl
        · exact hdlc e h
        · subst h; exact Or.inl rfl
      | httpStatus code =>
        simp only [] at he
        simp only [List.append_assoc, List.mem_append, List.mem_cons,
          List.not_mem_nil, or_false, or_assoc] at he
        rcases he with h | h | h | h | h | h | h | h
        · rcases load_env_events lenv e h with h3 | h3
          · subst h3; exact Or.inl rfl
          · exact Or.inr (Or.inl h3)
        · rw [resolveVal_events _ _ _ _ e h]; exact Or.inl rfl
        · rw [resolveVal_events _ _ _ _ e h]; exact Or.inl rfl
        · rw [resolveVal_events _ _ _ _ e h]; exact Or.inl rfl
        · subst h; exact Or.inl rfl
        · subst h; exact Or.inl rfl
        · exact hdlc e h
        · subst h; exact Or.inl rfl
      | writeFailed =>
        simp only [] at he
        simp only [List.append_assoc, List.mem_append, List.mem_cons,
          List.not_mem_nil, or_false, or_assoc] at he
        rcases he with h | h | h | h | h | h | h | h
        · rcases load_env_events lenv e h with h3 | h3
          · subst h3; exact Or.inl rfl
          · exact Or.inr (Or.inl h3)
        · rw [resolveVal_events _ _ _ _ e h]; exact Or.inl rfl
        · rw [resolveVal_events _ _ _ _ e h]; exact Or.inl rfl
        · rw [resolveVal_events _ _ _ _ e h]; exact Or.inl rfl
        · subst h; exact Or.inl rfl
        · subst h; exact Or.inl rfl
        · exact hdlc e h
        · subst h; exact Or.inl rfl

/-- Claim C8 (corrected; amended form).  The validated script's pipeline
reads or writes file contents at exactly one path, the artifact
`<targetDirectory>/agentInstaller.msi` (directory existence/permission
probes touch only metadata); the legacy script's pipeline additionally
reads the configuration file `./.env` before validation, and touches no
path other than those two. -/
theorem c8_artifact_only (a : String → String) (req : Validated.Request)
    (env : Env) (fs : FS) (argUrl argTd argToken : Option String)
    (pu pt pk : String) (lenv : Legacy.Env) (lfs : FS) :
    (∀ p ∈ pathsTouched ((Validated.run a req env fs).2.2),
      p = (a req.target_directory) ++ ("/") ++ ("agentInstaller.msi")) ∧
    (∀ p ∈ pathsTouched ((Legacy.run a argUrl argTd argToken pu pt pk lenv lfs).2.2),
      p = (".env")
      ∨ p = (a ((Legacy.resolveVal argTd
            (Legacy.lookupVar (Legacy.load_env_file lenv).1 ("RAPID7_TARGET_DIRECTORY"))
            Legacy.tdPromptText pt).1)) ++ ("/") ++ ("agentInstaller.msi")) := by
  constructor
  · exact validated_run_paths a req env fs
  · intro p hp
    rcases List.mem_filterMap.mp hp with ⟨e, he, hf⟩
    rcases legacy_run_fileEvents a argUrl argTd argToken pu pt pk lenv lfs e he with
      h | h | h | ⟨d, h⟩
    · rw [h] at hf
      cases hf
    · subst h
      simp [pathOf] at hf
      exact Or.inl hf.symm
    · subst h
      simp [pathOf] at hf
      exact Or.inr hf.symm
    · subst h
      simp [pathOf] at hf
      exact Or.inr hf.symm

/-- Claim C8 counterexample to the claim as stated: a legacy run with `.env`
present reads `./.env` in addition to writing the artifact file, so the
artifact is not the only path the system touches. -/
theorem c8_counterexample :
    pathsTouched ((Legacy.run id (some ("https://example.com/a.msi"))
        (some ("/tmp/valid")) (some tok39) ("") ("") ("") lenvOk fs0).2.2)
      = [(".env"), ("/tmp/valid/agentInstaller.msi"), ("/tmp/valid/agentInstaller.msi")] ∧
    (".env") ≠ ("/tmp/valid/agentInstaller.msi") := by
  refine ⟨by decide, by decide⟩

/-- Witness for C8 at concrete inputs. -/
theorem c8_witness :
    ("/tmp/valid/agentInstaller.msi" : String)
        = ("/tmp/valid") ++ ("/") ++ ("agentInstaller.msi") ∧
    ((".env" : String) = (".env")
      ∨ (".env" : String) = ("/tmp/valid") ++ ("/") ++ ("agentInstaller.msi")) :=
  ⟨(c8_artifact_only id reqValid envAllOk fs0 (some ("https://example.com/a.msi"))
      (some ("/tmp/valid")) (some tok39) ("") ("") ("") lenvOk fs0).1
      ("/tmp/valid/agentInstaller.msi") (by decide),
   (c8_artifact_only id reqValid envAllOk fs0 (some ("https://example.com/a.msi"))
      (some ("/tmp/valid")) (some tok39) ("") ("") ("") lenvOk fs0).2
      (".env") (by decide)⟩

set_option maxRecDepth 100000 in
set_option maxHeartbeats 1000000 in
/-- Claim C1 (code bug).  In the legacy script, a run with valid inputs whose
installer exits with status 1603 prints to stderr the text of the
`CalledProcessError`, which embeds the full msiexec argument vector —
including `CUSTOMTOKEN=<token>` — so the authentication token value is
written to standard error, contradicting the claim that no emitted error
message contains the token. -/
theorem c1_token_on_stderr :
    Event.errLine (("An error occurred: ")
        ++ Legacy.calledProcessErrorText
             (Legacy.install_command ("/tmp/valid/agentInstaller.msi") ("/tmp/valid") tok39)
             1603)
      ∈ (Legacy.run id (some ("https://example.com/a.msi")) (some ("/tmp/valid"))
          (some tok39) ("") ("") ("") lenv1603 fs0).2.2 ∧
    hasInfixL tok39.data
        ((("An error occurred: ")
          ++ Legacy.calledProcessErrorText
               (Legacy.install_command ("/tmp/valid/agentInstaller.msi") ("/tmp/valid") tok39)
               1603).data) = true := by
  refine ⟨by decide, by decide⟩
